import Mathlib

/-!
Shallow embedding of the vtm Terraform provider sources
(src/unnamed/part_000, src/unnamed/part_001, src/5.2.0/data_source_stats_event.go).

Terraform attribute presence is modelled with Option: a field holding
`some v` corresponds to `d.GetOk(key)` returning `(v, true)` (present and
non-zero), `none` to `ok == false`.  Calls to `d.Set(key, v)` are recorded
as `some v` in a writes record; `none` means no `d.Set` call on that key
was made by the function.  `d.SetId` is recorded as `Option String`
(`some ""` is a cleared id, `none` means SetId was not called).
Go stdlib json.Unmarshal / json.Marshal and the regexp compiler are
external to the repository and are taken as function parameters.
-/

/-- Error value returned by the go-vtm client library: it carries an
ErrorId (e.g. "resource.not_found") and an ErrorText. -/
structure VtmError where
  errorId : String
  errorText : String
deriving DecidableEq, Repr

/-- Modelled from the spec: the string form (%v rendering) of a go-vtm
client error, used when an Update wraps the whole error value.  The go-vtm
client library is external to this repository (spec section 1: out of
scope); only the fact that the wrapped message embeds the error is needed. -/
def vtmErrorShow (e : VtmError) : String :=
  e.errorId ++ ": " ++ e.errorText

/-! ## The recurring table-attribute block

Every table-valued attribute L with JSON shadow L_json is handled by the
same source block (e.g. part_000 lines 567-581 for dnssec_keys, part_001
lines 1404-1418 for trafficip):

    object.Field = &Table{}
    if vJson, ok := d.GetOk("L_json"); ok {
        _ = json.Unmarshal([]byte(vJson.(string)), object.Field)
    } else if v, ok := d.GetOk("L"); ok {
        for _, row := range v.(*schema.Set).List() { ...convert row...; append }
        d.Set("L", v)
    } else {
        d.Set("L", make([]map[string]interface{}, 0, len(*object.Field)))
    }
-/

/-- Result of one table-attribute block: the table stored into the vtm
object, the value passed to d.Set on the structured attribute L (if any),
and the value passed to d.Set on the shadow attribute L_json (if any). -/
structure TableBlockOut (Row Vtm : Type) where
  table : List Vtm
  setL : Option (List Row)
  setLjson : Option String
deriving Repr

/-- The table-attribute block, translated from the repeated source pattern.
`unmarshal` models json.Unmarshal into the freshly assigned empty table:
the source discards the Unmarshal error, so on parse failure the fresh
empty table is left in place; `conv` is the per-row conversion done by the
loop body.  No d.Set call on L_json occurs anywhere in the block, so
setLjson is none in every branch. -/
def tableBlock (unmarshal : String → Option (List Vtm)) (conv : Row → Vtm)
    (json : Option String) (structured : Option (List Row)) :
    TableBlockOut Row Vtm :=
  match json with
  | some s => ⟨(unmarshal s).getD [], none, none⟩
  | none =>
    match structured with
    | some rows => ⟨rows.map conv, some rows, none⟩
    | none => ⟨[], some [], none⟩

/-! ## The recurring string-list block

Every plain string-list attribute is handled by (e.g. part_001 lines
1327-1332):

    if _, ok := d.GetOk(key); ok {
        setStringList(&object.Field, d, key)
    } else {
        object.Field = &defaultList
        d.Set(key, []string(*object.Field))
    }
-/

/-- The string-list block, translated from the repeated source pattern.
First component: the list stored into the vtm object; second: the value
passed to d.Set on the attribute (none when no d.Set occurred).  The
helper setStringList lives in a repository file not present under src;
modelled from the spec (section 4.1 step 2): it copies the attribute value
into the object field. -/
def stringListBlock (dflt : List String) (attr : Option (List String)) :
    List String × Option (List String) :=
  match attr with
  | some l => (l, none)
  | none => (dflt, some dflt)

/-! ## GlbService resource (src/unnamed/part_000 lines 188-710) -/

/-- Row of the dnssec_keys table in the go-vtm object
(vtm.GlbServiceDnssecKeys); pointer-typed fields become Option. -/
structure GlbServiceDnssecKeys where
  Domain : Option String
  SslKey : Option (List String)
deriving DecidableEq, Repr

/-- Row of the location_settings table in the go-vtm object
(vtm.GlbServiceLocationSettings). -/
structure GlbServiceLocationSettings where
  Ips : Option (List String)
  Location : Option String
  Monitors : Option (List String)
  Weight : Option Int
deriving DecidableEq, Repr

/-- Terraform-side row of the dnssec_keys set attribute: per the schema,
domain and ssl_key are Required. -/
structure DnssecKeysRow where
  domain : String
  ssl_key : List String
deriving DecidableEq, Repr

/-- Terraform-side row of the location_settings set attribute. -/
structure LocationSettingsRow where
  ips : List String
  location : String
  monitors : List String
  weight : Int
deriving DecidableEq, Repr

/-- Loop body of the dnssec_keys structured branch (part_000 lines
571-577): VtmObject.Domain and VtmObject.SslKey are set from the row; the
helpers getStringAddr / getStringListAddr / expandStringList (repository
file not under src) are address-of / identity conversions, modelled from
the spec as such. -/
def dnssecKeysRowToVtm (r : DnssecKeysRow) : GlbServiceDnssecKeys :=
  ⟨some r.domain, some r.ssl_key⟩

/-- Loop body of the location_settings structured branch (part_000 lines
587-594). -/
def locationSettingsRowToVtm (r : LocationSettingsRow) :
    GlbServiceLocationSettings :=
  ⟨some r.ips, some r.location, some r.monitors, some r.weight⟩

/-- The Basic section of the go-vtm GlbService object, with exactly the
fields the resource functions touch. -/
structure GlbServiceBasic where
  Algorithm : String
  AllMonitorsNeeded : Bool
  Autorecovery : Bool
  ChainedAutoFailback : Bool
  ChainedLocationOrder : List String
  DisableOnFailure : Bool
  DnssecKeys : List GlbServiceDnssecKeys
  Domains : List String
  Enabled : Bool
  GeoEffect : Int
  LastResortResponse : List String
  LocationDraining : List String
  LocationSettings : List GlbServiceLocationSettings
  ReturnIpsOnFail : Bool
  Rules : List String
  Ttl : Int
deriving DecidableEq, Repr

/-- The Log section of the go-vtm GlbService object. -/
structure GlbServiceLog where
  Enabled : Bool
  Filename : String
  Format : String
deriving DecidableEq, Repr

/-- The go-vtm GlbService object as used by the resource functions. -/
structure GlbService where
  Basic : GlbServiceBasic
  Log : GlbServiceLog
deriving DecidableEq, Repr

/-- The ResourceData view of the vtm_glb_service schema: scalar attributes
always yield a value from d.Get (the schema default if unset); list, set
and json-string attributes are read through d.GetOk, hence Option. -/
structure GlbResourceData where
  name : String
  algorithm : String
  all_monitors_needed : Bool
  autorecovery : Bool
  chained_auto_failback : Bool
  chained_location_order : Option (List String)
  disable_on_failure : Bool
  dnssec_keys : Option (List DnssecKeysRow)
  dnssec_keys_json : Option String
  domains : Option (List String)
  enabled : Bool
  geo_effect : Int
  last_resort_response : Option (List String)
  location_draining : Option (List String)
  location_settings : Option (List LocationSettingsRow)
  location_settings_json : Option String
  return_ips_on_fail : Bool
  rules : Option (List String)
  ttl : Int
  log_enabled : Bool
  log_filename : String
  log_format : String
deriving Repr

/-- The d.Set calls resourceGlbServiceCreate makes on list/table/shadow
attributes (none = no call on that key). -/
structure GlbWrites where
  chained_location_order : Option (List String)
  domains : Option (List String)
  last_resort_response : Option (List String)
  location_draining : Option (List String)
  rules : Option (List String)
  dnssec_keys : Option (List DnssecKeysRow)
  dnssec_keys_json : Option String
  location_settings : Option (List LocationSettingsRow)
  location_settings_json : Option String
deriving Repr

/-- Result of resourceGlbServiceCreate: the object handed to Apply, the
d.Set writes, the d.SetId value, and the returned error. -/
structure GlbCreateOut where
  object : GlbService
  writes : GlbWrites
  id : Option String
  err : Option String

/-- resourceGlbServiceCreate (part_000 lines 519-607).  NewGlbService
cannot fail; the two json.Unmarshal calls are modelled by the unmarshal
parameters; `object.Apply()` at line 604 discards both return values, so
applyResult is ignored and the function unconditionally sets the id to the
name and returns nil. -/
def resourceGlbServiceCreate
    (unmarshalDnssecKeys : String → Option (List GlbServiceDnssecKeys))
    (unmarshalLocationSettings : String → Option (List GlbServiceLocationSettings))
    (applyResult : Except VtmError Unit)
    (d : GlbResourceData) : GlbCreateOut :=
  let clo := stringListBlock [] d.chained_location_order
  let doms := stringListBlock [] d.domains
  let lrr := stringListBlock [] d.last_resort_response
  let ld := stringListBlock [] d.location_draining
  let rls := stringListBlock [] d.rules
  let dk := tableBlock unmarshalDnssecKeys dnssecKeysRowToVtm
    d.dnssec_keys_json d.dnssec_keys
  let ls := tableBlock unmarshalLocationSettings locationSettingsRowToVtm
    d.location_settings_json d.location_settings
  let object : GlbService :=
    ⟨⟨d.algorithm, d.all_monitors_needed, d.autorecovery,
      d.chained_auto_failback, clo.1, d.disable_on_failure, dk.table,
      doms.1, d.enabled, d.geo_effect, lrr.1, ld.1, ls.table,
      d.return_ips_on_fail, rls.1, d.ttl⟩,
     ⟨d.log_enabled, d.log_filename, d.log_format⟩⟩
  let _ := applyResult
  ⟨object,
   ⟨clo.2, doms.2, lrr.2, ld.2, rls.2, dk.setL, dk.setLjson, ls.setL,
    ls.setLjson⟩,
   some d.name, none⟩

/-- The state resourceGlbServiceRead writes through d.Set on success
(part_000 lines 449-501).  The per-row conversion to terraform maps keeps
exactly the non-nil fields, so the go-vtm row types represent it
faithfully; the two *_json writes hold json.Marshal of the converted rows
(Marshal never fails on these shapes and its error is discarded at lines
468 and 494), modelled by the marshal parameters. -/
structure GlbReadState where
  algorithm : String
  all_monitors_needed : Bool
  autorecovery : Bool
  chained_auto_failback : Bool
  chained_location_order : List String
  disable_on_failure : Bool
  dnssec_keys : List GlbServiceDnssecKeys
  dnssec_keys_json : String
  domains : List String
  enabled : Bool
  geo_effect : Int
  last_resort_response : List String
  location_draining : List String
  location_settings : List GlbServiceLocationSettings
  location_settings_json : String
  return_ips_on_fail : Bool
  rules : List String
  ttl : Int
  log_enabled : Bool
  log_filename : String
  log_format : String
deriving Repr

/-- resourceGlbServiceRead (part_000 lines 439-505): on a
resource.not_found error the id is cleared and nil is returned; any other
error is wrapped with the resource type and name; on success all
attributes and the id are written. -/
def resourceGlbServiceRead
    (marshalDnssecKeys : List GlbServiceDnssecKeys → String)
    (marshalLocationSettings : List GlbServiceLocationSettings → String)
    (get : String → Except VtmError GlbService)
    (name : String) :
    Option GlbReadState × Option String × Option String :=
  match get name with
  | .error e =>
    if e.errorId = "resource.not_found" then (none, some "", none)
    else (none, none,
      some ("Failed to read vtm_glb_service '" ++ name ++ "': " ++
        e.errorText))
  | .ok obj =>
    (some ⟨obj.Basic.Algorithm, obj.Basic.AllMonitorsNeeded,
      obj.Basic.Autorecovery, obj.Basic.ChainedAutoFailback,
      obj.Basic.ChainedLocationOrder, obj.Basic.DisableOnFailure,
      obj.Basic.DnssecKeys, marshalDnssecKeys obj.Basic.DnssecKeys,
      obj.Basic.Domains, obj.Basic.Enabled, obj.Basic.GeoEffect,
      obj.Basic.LastResortResponse, obj.Basic.LocationDraining,
      obj.Basic.LocationSettings,
      marshalLocationSettings obj.Basic.LocationSettings,
      obj.Basic.ReturnIpsOnFail, obj.Basic.Rules, obj.Basic.Ttl,
      obj.Log.Enabled, obj.Log.Filename, obj.Log.Format⟩,
     some name, none)

/-! ## Statistics data sources -/

/-- Statistics section of the go-vtm EventStatistics object
(src/5.2.0/data_source_stats_event.go). -/
structure EventStatistics where
  Matched : Int
deriving DecidableEq, Repr

/-- dataSourceEventStatisticsRead (src/5.2.0/data_source_stats_event.go
lines 36-49).  Result: the d.Set("matched") write, the d.SetId value, and
the returned error. -/
def dataSourceEventStatisticsRead
    (get : String → Except VtmError EventStatistics) (name : String) :
    Option Int × Option String × Option String :=
  match get name with
  | .error e =>
    if e.errorId = "resource.not_found" then (none, some "", none)
    else (none, none,
      some ("Failed to read vtm_events '" ++ name ++ "': " ++ e.errorText))
  | .ok obj => (some obj.Matched, some name, none)

/-- Statistics section of the go-vtm ExtrasUserCounters64Statistics
object (part_000 lines 77-109). -/
structure UserCounters64Statistics where
  Counter : Int
deriving DecidableEq, Repr

/-- dataSourceExtrasUserCounters64StatisticsRead (part_000 lines 101-109).
This singleton data source takes no name; its error path has no
resource.not_found case: every error is wrapped (with the resource type
only) and returned, and neither d.SetId nor d.Set is reached. -/
def dataSourceExtrasUserCounters64StatisticsRead
    (get : Except VtmError UserCounters64Statistics) :
    Option Int × Option String × Option String :=
  match get with
  | .error e =>
    (none, none, some ("Failed to read vtm_user_counters_64: " ++ e.errorText))
  | .ok obj => (some obj.Counter, some "user_counters_64", none)

/-- Statistics section of the go-vtm ListenIpStatistics object (part_000
lines 113-187). -/
structure ListenIpStatistics where
  BytesIn : Int
  BytesOut : Int
  CurrentConn : Int
  MaxConn : Int
  TotalRequests : Int
deriving DecidableEq, Repr

/-- dataSourceListenIpStatisticsRead (part_000 lines 170-187). -/
def dataSourceListenIpStatisticsRead
    (get : String → Except VtmError ListenIpStatistics) (name : String) :
    Option ListenIpStatistics × Option String × Option String :=
  match get name with
  | .error e =>
    if e.errorId = "resource.not_found" then (none, some "", none)
    else (none, none,
      some ("Failed to read vtm_listen_ips '" ++ name ++ "': " ++
        e.errorText))
  | .ok obj => (some obj, some name, none)

/-! ## Security resource (src/unnamed/part_001 lines 1-150) -/

/-- ResourceData view of the vtm_security schema. -/
structure SecurityResourceData where
  access : Option (List String)
  ssh_intrusion_bantime : Int
  ssh_intrusion_blacklist : Option (List String)
  ssh_intrusion_enabled : Bool
  ssh_intrusion_findtime : Int
  ssh_intrusion_maxretry : Int
  ssh_intrusion_whitelist : Option (List String)
deriving Repr

/-- Fields of the go-vtm Security object touched by the resource
functions (Basic.Access and the SshIntrusion section). -/
structure SecurityObject where
  Access : List String
  Bantime : Int
  Blacklist : List String
  Enabled : Bool
  Findtime : Int
  Maxretry : Int
  Whitelist : List String
deriving DecidableEq, Repr

/-- Successful result of resourceSecurityUpdate: the object handed to
Apply, the d.Set writes on the three list attributes, and the d.SetId
value. -/
structure SecurityUpdateOut where
  object : SecurityObject
  writeAccess : Option (List String)
  writeBlacklist : Option (List String)
  writeWhitelist : Option (List String)
  id : Option String

/-- resourceSecurityUpdate (part_001 lines 111-145), also registered as
the Create function of the resource.  A failed GetSecurity is wrapped and
returned; otherwise every field of the fetched object is overwritten,
`object.Apply()` at line 142 discards both return values, the id is set
to "security" and nil is returned. -/
def resourceSecurityUpdate (get : Except VtmError SecurityObject)
    (applyResult : Except VtmError Unit) (d : SecurityResourceData) :
    Except String SecurityUpdateOut :=
  match get with
  | .error e => .error ("Failed to update vtm_security: " ++ vtmErrorShow e)
  | .ok _obj =>
    let acc := stringListBlock [] d.access
    let bl := stringListBlock [] d.ssh_intrusion_blacklist
    let wl := stringListBlock [] d.ssh_intrusion_whitelist
    let object : SecurityObject :=
      ⟨acc.1, d.ssh_intrusion_bantime, bl.1, d.ssh_intrusion_enabled,
       d.ssh_intrusion_findtime, d.ssh_intrusion_maxretry, wl.1⟩
    let _ := applyResult
    .ok ⟨object, acc.2, bl.2, wl.2, some "security"⟩

/-! ## TrafficManager resource (src/unnamed/part_001 lines 150-1485) -/

/-- Row of the trafficip table in the go-vtm object
(vtm.TrafficManagerTrafficip). -/
structure TrafficManagerTrafficip where
  Name : Option String
  Networks : Option (List String)
deriving DecidableEq, Repr

/-- Terraform-side row of the trafficip set attribute. -/
structure TrafficipRow where
  name : String
  networks : List String
deriving DecidableEq, Repr

/-- Loop body of the trafficip structured branch (part_001 lines
1408-1414). -/
def trafficipRowToVtm (r : TrafficipRow) : TrafficManagerTrafficip :=
  ⟨some r.name, some r.networks⟩

/-- ResourceData view of the vtm_traffic_manager schema, restricted to
the attributes embedded here: the nine plain string-list attributes of
resourceTrafficManagerUpdate and the trafficip table with its JSON
shadow.  The remaining attributes of the source function are plain scalar
copies (setString/setBool/setInt) and three further table blocks of the
identical tableBlock shape (appliance_hosts, appliance_if, appliance_ip,
appliance_routes, appliance_card, appliance_sysctl); they do not interact
with the embedded ones. -/
structure TMResourceData where
  name : String
  appliance_name_servers : Option (List String)
  appliance_ntpservers : Option (List String)
  appliance_search_domains : Option (List String)
  appliance_vlans : Option (List String)
  trafficip : Option (List TrafficipRow)
  trafficip_json : Option String
  ec2_trafficips_public_enis : Option (List String)
  fault_tolerance_lss_dedicated_ips : Option (List String)
  fault_tolerance_ospfv2_neighbor_addrs : Option (List String)
  rest_api_bind_ips : Option (List String)
  snmp_allow : Option (List String)
deriving Repr

/-- The embedded fields of the go-vtm TrafficManager object:
Appliance.NameServers, Appliance.Ntpservers, Appliance.SearchDomains,
Appliance.Vlans, Basic.Trafficip, Ec2.TrafficipsPublicEnis,
FaultTolerance.LssDedicatedIps, FaultTolerance.Ospfv2NeighborAddrs,
RestApi.BindIps, Snmp.Allow. -/
structure TMObjectFields where
  NameServers : List String
  Ntpservers : List String
  SearchDomains : List String
  Vlans : List String
  Trafficip : List TrafficManagerTrafficip
  TrafficipsPublicEnis : List String
  LssDedicatedIps : List String
  Ospfv2NeighborAddrs : List String
  BindIps : List String
  Allow : List String
deriving DecidableEq, Repr

/-- The d.Set calls resourceTrafficManagerUpdate makes on the embedded
attributes. -/
structure TMWrites where
  appliance_name_servers : Option (List String)
  appliance_ntpservers : Option (List String)
  appliance_search_domains : Option (List String)
  appliance_vlans : Option (List String)
  trafficip : Option (List TrafficipRow)
  trafficip_json : Option String
  ec2_trafficips_public_enis : Option (List String)
  fault_tolerance_lss_dedicated_ips : Option (List String)
  fault_tolerance_ospfv2_neighbor_addrs : Option (List String)
  rest_api_bind_ips : Option (List String)
  snmp_allow : Option (List String)
deriving Repr

/-- Successful result of resourceTrafficManagerUpdate. -/
structure TMUpdateOut where
  object : TMObjectFields
  writes : TMWrites
  id : Option String

/-- resourceTrafficManagerUpdate (part_001 lines 1226-1481), also
registered as the Create function, restricted to the attributes named in
TMResourceData.  A failed GetTrafficManager is wrapped (line 1230, using
%v of the whole error) and returned; otherwise the fetched object's
embedded fields are all overwritten, `object.Apply()` at line 1478
discards both return values, the id is set to the name and nil is
returned.  Literal defaults are from lines 1330, 1443, 1457 and 1465. -/
def resourceTrafficManagerUpdate
    (unmarshalTrafficip : String → Option (List TrafficManagerTrafficip))
    (get : String → Except VtmError TMObjectFields)
    (applyResult : Except VtmError Unit)
    (d : TMResourceData) : Except String TMUpdateOut :=
  match get d.name with
  | .error e =>
    .error ("Failed to update vtm_traffic_manager '" ++ d.name ++ "': " ++
      vtmErrorShow e)
  | .ok _obj =>
    let ns := stringListBlock [] d.appliance_name_servers
    let ntp := stringListBlock
      ["0.zeus.pool.ntp.org", "1.zeus.pool.ntp.org", "2.zeus.pool.ntp.org",
       "3.zeus.pool.ntp.org"] d.appliance_ntpservers
    let sd := stringListBlock [] d.appliance_search_domains
    let vl := stringListBlock [] d.appliance_vlans
    let tip := tableBlock unmarshalTrafficip trafficipRowToVtm
      d.trafficip_json d.trafficip
    let enis := stringListBlock [] d.ec2_trafficips_public_enis
    let lss := stringListBlock [] d.fault_tolerance_lss_dedicated_ips
    let ospf := stringListBlock ["%gateway%"]
      d.fault_tolerance_ospfv2_neighbor_addrs
    let bind := stringListBlock ["*"] d.rest_api_bind_ips
    let allow := stringListBlock ["all"] d.snmp_allow
    let _ := applyResult
    .ok ⟨⟨ns.1, ntp.1, sd.1, vl.1, tip.table, enis.1, lss.1, ospf.1,
          bind.1, allow.1⟩,
         ⟨ns.2, ntp.2, sd.2, vl.2, tip.setL, tip.setLjson, enis.2, lss.2,
          ospf.2, bind.2, allow.2⟩,
         some d.name⟩

/-! ## Traffic manager list data source (src/unnamed/part_000 lines 14-73)

The four filter helpers are defined in a repository file not present
under src (only their call sites are); they are modelled from the spec,
section 4.2: given an input sequence of strings and a filter predicate,
return the subsequence satisfying it. -/

/-- Modelled from the spec: helper getStringListStartingWith returns the
items that start with the given string. -/
def getStringListStartingWith (l : List String) (p : String) : List String :=
  l.filter (fun s => s.startsWith p)

/-- Modelled from the spec: helper getStringListEndingWith returns the
items that end with the given string. -/
def getStringListEndingWith (l : List String) (p : String) : List String :=
  l.filter (fun s => s.endsWith p)

/-- Decidable substring test used to model the contains predicate. -/
def strContainsSubstr (s sub : String) : Bool :=
  (List.range (s.length + 1)).any
    (fun i => sub.isPrefixOf (String.mk (s.data.drop i)))

/-- Modelled from the spec: helper getStringListContaining returns the
items that contain the given string. -/
def getStringListContaining (l : List String) (p : String) : List String :=
  l.filter (fun s => strContainsSubstr s p)

/-- Modelled from the spec: helper getStringListMatchingRegex compiles the
pattern and returns the matching items, or the compilation error.  The Go
regexp engine is external; compilation is the compile parameter, giving
either a match predicate or an error. -/
def getStringListMatchingRegex
    (compile : String → Except String (String → Bool))
    (l : List String) (pat : String) : Except String (List String) :=
  match compile pat with
  | .error e => .error e
  | .ok m => .ok (l.filter (fun s => m s))

/-- ResourceData view of the vtm_traffic_manager_list filter attributes. -/
structure ListFilterData where
  starts_with : Option String
  ends_with : Option String
  contains : Option String
  regex_match : Option String

/-- dataSourceTrafficManagerListRead (part_000 lines 45-73).  Result: the
d.Set("object_list") write, the d.SetId value, and the returned error.
The supplied filters are applied in the fixed source order starts_with,
ends_with, contains, regex_match; a regex compilation error clears the id
and is returned. -/
def dataSourceTrafficManagerListRead
    (compile : String → Except String (String → Bool))
    (listTrafficManagers : Except VtmError (List String))
    (d : ListFilterData) :
    Option (List String) × Option String × Option String :=
  match listTrafficManagers with
  | .error e =>
    (none, some "",
     some ("Failed to read vtm_traffic_manager_list: " ++ e.errorText))
  | .ok l0 =>
    let l1 := match d.starts_with with
      | some p => getStringListStartingWith l0 p
      | none => l0
    let l2 := match d.ends_with with
      | some p => getStringListEndingWith l1 p
      | none => l1
    let l3 := match d.contains with
      | some p => getStringListContaining l2 p
      | none => l2
    match d.regex_match with
    | some pat =>
      match getStringListMatchingRegex compile l3 pat with
      | .error e => (none, some "", some e)
      | .ok l4 => (some l4, some "traffic_manager_list", none)
    | none => (some l3, some "traffic_manager_list", none)

/-! ## Concrete sample inputs for the closed evaluations -/

/-- Sample terraform-side dnssec_keys row. -/
def sampleDnssecRow : DnssecKeysRow := ⟨"example.com", ["key1"]⟩

/-- Sample terraform-side location_settings row. -/
def sampleLocRow : LocationSettingsRow := ⟨["1.2.3.4"], "loc1", ["mon1"], 1⟩

/-- Sample dnssec_keys table row as produced by a successful unmarshal. -/
def sampleDnssecVtm : GlbServiceDnssecKeys := ⟨some "json.example", some ["k2"]⟩

/-- Sample location_settings table row as produced by a successful
unmarshal. -/
def sampleLocVtm : GlbServiceLocationSettings :=
  ⟨some ["9.9.9.9"], some "jloc", some [], some 2⟩

/-- Sample unmarshal behaviour for the dnssec_keys table shape: the string
"[sample]" parses, everything else fails. -/
def sampleUnmarshalDnssec : String → Option (List GlbServiceDnssecKeys) :=
  fun s => if s = "[sample]" then some [sampleDnssecVtm] else none

/-- Sample unmarshal behaviour for the location_settings table shape. -/
def sampleUnmarshalLoc : String → Option (List GlbServiceLocationSettings) :=
  fun s => if s = "[loc]" then some [sampleLocVtm] else none

/-- Sample trafficip table row as produced by a successful unmarshal. -/
def sampleTrafficipVtm : TrafficManagerTrafficip :=
  ⟨some "tip1", some ["10.0.0.0/24"]⟩

/-- Sample unmarshal behaviour for the trafficip table shape. -/
def sampleUnmarshalTrafficip : String → Option (List TrafficManagerTrafficip) :=
  fun s => if s = "[tip]" then some [sampleTrafficipVtm] else none

/-- Sample glb service configuration: both JSON shadows present and valid,
both structured attributes also present. -/
def glbData0 : GlbResourceData :=
  ⟨"glb1", "hybrid", true, true, false, none, false,
   some [sampleDnssecRow], some "[sample]", none, false, 50, none, none,
   some [sampleLocRow], some "[loc]", true, none, -1, false,
   "%zeushome%/zxtm/log/services/%g.log", "%t, %s"⟩

/-- Sample glb service configuration: JSON shadows absent, structured
attributes present. -/
def glbData1 : GlbResourceData :=
  ⟨"glb1", "hybrid", true, true, false, none, false,
   some [sampleDnssecRow], none, none, false, 50, none, none,
   some [sampleLocRow], none, true, none, -1, false,
   "%zeushome%/zxtm/log/services/%g.log", "%t, %s"⟩

/-- Sample glb service configuration: every optional attribute absent. -/
def glbData2 : GlbResourceData :=
  ⟨"glb1", "hybrid", true, true, false, none, false,
   none, none, none, false, 50, none, none,
   none, none, true, none, -1, false,
   "%zeushome%/zxtm/log/services/%g.log", "%t, %s"⟩

/-- Sample glb service configuration: malformed JSON shadows (no sample
unmarshal succeeds on "oops"), structured attributes present. -/
def glbDataBad : GlbResourceData :=
  ⟨"glb1", "hybrid", true, true, false, none, false,
   some [sampleDnssecRow], some "oops", none, false, 50, none, none,
   some [sampleLocRow], some "oops", true, none, -1, false,
   "%zeushome%/zxtm/log/services/%g.log", "%t, %s"⟩

/-- Sample fetched traffic manager object. -/
def tmObj0 : TMObjectFields := ⟨[], [], [], [], [], [], [], [], [], []⟩

/-- Sample GetTrafficManager that always succeeds. -/
def tmGetOk : String → Except VtmError TMObjectFields := fun _ => .ok tmObj0

/-- Sample traffic manager configuration: trafficip JSON shadow present
and valid, every other embedded attribute absent. -/
def tmData0 : TMResourceData :=
  ⟨"tm1", none, none, none, none, some [⟨"tip9", ["n1"]⟩], some "[tip]",
   none, none, none, none, none⟩

/-- Sample traffic manager configuration: every embedded optional
attribute absent. -/
def tmData1 : TMResourceData :=
  ⟨"tm1", none, none, none, none, none, none, none, none, none, none, none⟩

/-- Sample traffic manager configuration: trafficip structured attribute
present, JSON shadow absent. -/
def tmData2 : TMResourceData :=
  ⟨"tm1", none, none, none, none, some [⟨"tip9", ["n1"]⟩], none,
   none, none, none, none, none⟩

/-- Sample traffic manager configuration: malformed trafficip JSON shadow. -/
def tmDataBad : TMResourceData :=
  ⟨"tm1", none, none, none, none, some [⟨"tip9", ["n1"]⟩], some "oops",
   none, none, none, none, none⟩

/-- Sample security configuration: all three list attributes absent. -/
def secData0 : SecurityResourceData := ⟨none, 600, none, false, 600, 6, none⟩

/-- Sample fetched security object. -/
def secObj0 : SecurityObject := ⟨["10.0.0.1"], 30, ["b"], true, 60, 3, ["w"]⟩

/-- Sample failed Apply outcome, used to evaluate the functions at a
failing apply. -/
def applyFail : Except VtmError Unit := .error ⟨"apply.failed", "boom"⟩

/-- Literal default of appliance_ntpservers (part_001 line 1330). -/
def zeusNtpDefault : List String :=
  ["0.zeus.pool.ntp.org", "1.zeus.pool.ntp.org", "2.zeus.pool.ntp.org",
   "3.zeus.pool.ntp.org"]

/-- Sample match predicate produced by a successful regex compilation. -/
def sampleMatchEven : String → Bool := fun s => s.length % 2 == 0

/-- Sample regexp compilation: the pattern "bad[" fails to compile,
everything else compiles to sampleMatchEven. -/
def sampleCompile : String → Except String (String → Bool) :=
  fun p => if p = "bad[" then .error "error parsing regexp: bad["
           else .ok sampleMatchEven

/-! ## Claim theorems -/

/-- Helper: under a successful fetch, resourceTrafficManagerUpdate
returns ok with the per-attribute block results assembled componentwise. -/
theorem trafficManagerUpdate_ok_eq
    (uT : String → Option (List TrafficManagerTrafficip))
    (g : String → Except VtmError TMObjectFields)
    (a : Except VtmError Unit) (td : TMResourceData)
    (obj : TMObjectFields) (hg : g td.name = .ok obj) :
    resourceTrafficManagerUpdate uT g a td = .ok
      ⟨⟨(stringListBlock [] td.appliance_name_servers).1,
        (stringListBlock zeusNtpDefault td.appliance_ntpservers).1,
        (stringListBlock [] td.appliance_search_domains).1,
        (stringListBlock [] td.appliance_vlans).1,
        (tableBlock uT trafficipRowToVtm td.trafficip_json
          td.trafficip).table,
        (stringListBlock [] td.ec2_trafficips_public_enis).1,
        (stringListBlock [] td.fault_tolerance_lss_dedicated_ips).1,
        (stringListBlock ["%gateway%"]
          td.fault_tolerance_ospfv2_neighbor_addrs).1,
        (stringListBlock ["*"] td.rest_api_bind_ips).1,
        (stringListBlock ["all"] td.snmp_allow).1⟩,
       ⟨(stringListBlock [] td.appliance_name_servers).2,
        (stringListBlock zeusNtpDefault td.appliance_ntpservers).2,
        (stringListBlock [] td.appliance_search_domains).2,
        (stringListBlock [] td.appliance_vlans).2,
        (tableBlock uT trafficipRowToVtm td.trafficip_json
          td.trafficip).setL,
        (tableBlock uT trafficipRowToVtm td.trafficip_json
          td.trafficip).setLjson,
        (stringListBlock [] td.ec2_trafficips_public_enis).2,
        (stringListBlock [] td.fault_tolerance_lss_dedicated_ips).2,
        (stringListBlock ["%gateway%"]
          td.fault_tolerance_ospfv2_neighbor_addrs).2,
        (stringListBlock ["*"] td.rest_api_bind_ips).2,
        (stringListBlock ["all"] td.snmp_allow).2⟩,
       some td.name⟩ := by
  simp [resourceTrafficManagerUpdate, hg, zeusNtpDefault]

/-- Helper: the JSON-shadow branch of a table block performs no d.Set on
the structured attribute and none on the shadow. -/
theorem tableBlock_setLjson_none (unmarshal : String → Option (List Vtm))
    (conv : Row → Vtm) (json : Option String)
    (structured : Option (List Row)) :
    (tableBlock unmarshal conv json structured).setLjson = none := by
  cases json <;> cases structured <;> simp [tableBlock]

/-- C1: for every table attribute L with JSON shadow L_json, in Create
(resourceGlbServiceCreate: dnssec_keys, location_settings) and in Update
(resourceTrafficManagerUpdate: trafficip), when L_json is present and its
contents unmarshal to a table, the value sent upstream equals that table,
regardless of the structured attribute's contents. -/
theorem json_shadow_wins_in_create_and_update
    (uD : String → Option (List GlbServiceDnssecKeys))
    (uL : String → Option (List GlbServiceLocationSettings))
    (uT : String → Option (List TrafficManagerTrafficip))
    (a : Except VtmError Unit) (d : GlbResourceData) (td : TMResourceData)
    (g : String → Except VtmError TMObjectFields) (obj : TMObjectFields)
    (s1 s2 s3 : String) (t1 : List GlbServiceDnssecKeys)
    (t2 : List GlbServiceLocationSettings)
    (t3 : List TrafficManagerTrafficip)
    (hj1 : d.dnssec_keys_json = some s1) (hu1 : uD s1 = some t1)
    (hj2 : d.location_settings_json = some s2) (hu2 : uL s2 = some t2)
    (hg : g td.name = .ok obj)
    (hj3 : td.trafficip_json = some s3) (hu3 : uT s3 = some t3) :
    (resourceGlbServiceCreate uD uL a d).object.Basic.DnssecKeys = t1 ∧
    (resourceGlbServiceCreate uD uL a d).object.Basic.LocationSettings = t2 ∧
    ∃ out, resourceTrafficManagerUpdate uT g a td = .ok out ∧
      out.object.Trafficip = t3 := by
  refine ⟨?_, ?_, ?_⟩
  · simp [resourceGlbServiceCreate, tableBlock, hj1, hu1]
  · simp [resourceGlbServiceCreate, tableBlock, hj2, hu2]
  · simp [resourceTrafficManagerUpdate, tableBlock, hg, hj3, hu3]

/-- C1 witness: concrete evaluation at glbData0 and tmData0, where both
JSON shadows parse; the structured attributes hold different rows and are
ignored. -/
theorem json_shadow_wins_witness :
    (resourceGlbServiceCreate sampleUnmarshalDnssec sampleUnmarshalLoc
      applyFail glbData0).object.Basic.DnssecKeys = [sampleDnssecVtm] ∧
    (resourceGlbServiceCreate sampleUnmarshalDnssec sampleUnmarshalLoc
      applyFail glbData0).object.Basic.LocationSettings = [sampleLocVtm] ∧
    ∃ out, resourceTrafficManagerUpdate sampleUnmarshalTrafficip tmGetOk
        applyFail tmData0 = .ok out ∧
      out.object.Trafficip = [sampleTrafficipVtm] :=
  json_shadow_wins_in_create_and_update sampleUnmarshalDnssec
    sampleUnmarshalLoc sampleUnmarshalTrafficip applyFail glbData0 tmData0
    tmGetOk tmObj0 "[sample]" "[loc]" "[tip]" [sampleDnssecVtm]
    [sampleLocVtm] [sampleTrafficipVtm] rfl rfl rfl rfl rfl rfl rfl

/-- C2 counterexample: at the concrete input glbData0 (JSON shadow present
and valid), resourceGlbServiceCreate performs no d.Set on dnssec_keys and
none on dnssec_keys_json — so it is false that both attributes are written
back into the local state after reconciliation. -/
theorem writeback_both_counterexample :
    (resourceGlbServiceCreate sampleUnmarshalDnssec sampleUnmarshalLoc
      applyFail glbData0).writes.dnssec_keys = none ∧
    (resourceGlbServiceCreate sampleUnmarshalDnssec sampleUnmarshalLoc
      applyFail glbData0).writes.dnssec_keys_json = none := by
  constructor <;> rfl

/-- C2 amended: in Create and Update the JSON shadow attribute is never
written back; the structured attribute is written back only when the JSON
shadow is absent (with its own rows when present, with the empty list when
absent).  Both attributes are written back only by Read. -/
theorem writeback_only_structured_in_create_update
    (uD : String → Option (List GlbServiceDnssecKeys))
    (uL : String → Option (List GlbServiceLocationSettings))
    (uT : String → Option (List TrafficManagerTrafficip))
    (a : Except VtmError Unit) (d : GlbResourceData) (td : TMResourceData)
    (g : String → Except VtmError TMObjectFields) (obj : TMObjectFields)
    (gr : String → Except VtmError GlbService)
    (mD : List GlbServiceDnssecKeys → String)
    (mL : List GlbServiceLocationSettings → String)
    (name : String) (robj : GlbService)
    (hg : g td.name = .ok obj) (hr : gr name = .ok robj) :
    (resourceGlbServiceCreate uD uL a d).writes.dnssec_keys_json = none ∧
    (resourceGlbServiceCreate uD uL a d).writes.location_settings_json
      = none ∧
    (∀ s, d.dnssec_keys_json = some s →
      (resourceGlbServiceCreate uD uL a d).writes.dnssec_keys = none) ∧
    (∀ rows, d.dnssec_keys_json = none → d.dnssec_keys = some rows →
      (resourceGlbServiceCreate uD uL a d).writes.dnssec_keys
        = some rows) ∧
    (d.dnssec_keys_json = none → d.dnssec_keys = none →
      (resourceGlbServiceCreate uD uL a d).writes.dnssec_keys = some []) ∧
    (∃ out, resourceTrafficManagerUpdate uT g a td = .ok out ∧
      out.writes.trafficip_json = none ∧
      (∀ s, td.trafficip_json = some s → out.writes.trafficip = none)) ∧
    (∃ st, (resourceGlbServiceRead mD mL gr name).1 = some st ∧
      st.dnssec_keys = robj.Basic.DnssecKeys ∧
      st.dnssec_keys_json = mD robj.Basic.DnssecKeys) := by
  refine ⟨?_, ?_, ?_, ?_, ?_, ?_, ?_⟩
  · cases hj : d.dnssec_keys_json <;>
      cases hk : d.dnssec_keys <;>
      simp [resourceGlbServiceCreate, tableBlock, hj, hk]
  · cases hj : d.location_settings_json <;>
      cases hk : d.location_settings <;>
      simp [resourceGlbServiceCreate, tableBlock, hj, hk]
  · intro s hj; simp [resourceGlbServiceCreate, tableBlock, hj]
  · intro rows hj hk; simp [resourceGlbServiceCreate, tableBlock, hj, hk]
  · intro hj hk; simp [resourceGlbServiceCreate, tableBlock, hj, hk]
  · refine ⟨_, trafficManagerUpdate_ok_eq uT g a td obj hg, ?_, ?_⟩
    · exact tableBlock_setLjson_none uT trafficipRowToVtm
        td.trafficip_json td.trafficip
    · intro s hj; simp [tableBlock, hj]
  · simp [resourceGlbServiceRead, hr]

/-- C2 amended witness: concrete evaluation at glbData0 / tmData0. -/
theorem writeback_only_structured_witness :
    (resourceGlbServiceCreate sampleUnmarshalDnssec sampleUnmarshalLoc
      applyFail glbData0).writes.dnssec_keys_json = none ∧
    (resourceGlbServiceCreate sampleUnmarshalDnssec sampleUnmarshalLoc
      applyFail glbData0).writes.dnssec_keys = none ∧
    (resourceGlbServiceCreate sampleUnmarshalDnssec sampleUnmarshalLoc
      applyFail glbData1).writes.dnssec_keys = some [sampleDnssecRow] ∧
    (resourceGlbServiceCreate sampleUnmarshalDnssec sampleUnmarshalLoc
      applyFail glbData2).writes.dnssec_keys = some [] ∧
    (∃ out, resourceTrafficManagerUpdate sampleUnmarshalTrafficip tmGetOk
        applyFail tmData0 = .ok out ∧
      out.writes.trafficip_json = none ∧
      (∀ s, tmData0.trafficip_json = some s →
        out.writes.trafficip = none)) ∧
    (∃ st, (resourceGlbServiceRead (fun _ => "[marshalled]")
        (fun _ => "[marshalled]") (fun _ => .ok
          ⟨⟨"hybrid", true, true, false, [], false, [sampleDnssecVtm], [],
            false, 50, [], [], [], true, [], -1⟩,
           ⟨false, "f", "g"⟩⟩) "glb1").1 = some st ∧
      st.dnssec_keys = [sampleDnssecVtm] ∧
      st.dnssec_keys_json = "[marshalled]") := by
  have h0 := writeback_only_structured_in_create_update
    sampleUnmarshalDnssec sampleUnmarshalLoc sampleUnmarshalTrafficip
    applyFail glbData0 tmData0 tmGetOk tmObj0
    (fun _ => .ok ⟨⟨"hybrid", true, true, false, [], false,
      [sampleDnssecVtm], [], false, 50, [], [], [], true, [], -1⟩,
      ⟨false, "f", "g"⟩⟩)
    (fun _ => "[marshalled]") (fun _ => "[marshalled]") "glb1"
    ⟨⟨"hybrid", true, true, false, [], false, [sampleDnssecVtm], [],
      false, 50, [], [], [], true, [], -1⟩, ⟨false, "f", "g"⟩⟩
    rfl rfl
  have h1 := writeback_only_structured_in_create_update
    sampleUnmarshalDnssec sampleUnmarshalLoc sampleUnmarshalTrafficip
    applyFail glbData1 tmData0 tmGetOk tmObj0
    (fun _ => .ok ⟨⟨"hybrid", true, true, false, [], false,
      [sampleDnssecVtm], [], false, 50, [], [], [], true, [], -1⟩,
      ⟨false, "f", "g"⟩⟩)
    (fun _ => "[marshalled]") (fun _ => "[marshalled]") "glb1"
    ⟨⟨"hybrid", true, true, false, [], false, [sampleDnssecVtm], [],
      false, 50, [], [], [], true, [], -1⟩, ⟨false, "f", "g"⟩⟩
    rfl rfl
  have h2 := writeback_only_structured_in_create_update
    sampleUnmarshalDnssec sampleUnmarshalLoc sampleUnmarshalTrafficip
    applyFail glbData2 tmData0 tmGetOk tmObj0
    (fun _ => .ok ⟨⟨"hybrid", true, true, false, [], false,
      [sampleDnssecVtm], [], false, 50, [], [], [], true, [], -1⟩,
      ⟨false, "f", "g"⟩⟩)
    (fun _ => "[marshalled]") (fun _ => "[marshalled]") "glb1"
    ⟨⟨"hybrid", true, true, false, [], false, [sampleDnssecVtm], [],
      false, 50, [], [], [], true, [], -1⟩, ⟨false, "f", "g"⟩⟩
    rfl rfl
  exact ⟨h0.1, h0.2.2.1 "[sample]" rfl, h1.2.2.2.1 [sampleDnssecRow] rfl rfl,
    h2.2.2.2.2.1 rfl rfl, h0.2.2.2.2.2.1, h0.2.2.2.2.2.2⟩

/-- C3 counterexample: the singleton user-counters statistics data source
has no resource.not_found case; at a concrete not_found error it returns a
wrapped error (so an error IS raised) and does not clear the id. -/
theorem user_counters_not_found_counterexample :
    dataSourceExtrasUserCounters64StatisticsRead
      (.error ⟨"resource.not_found", "nf"⟩) =
    (none, none, some "Failed to read vtm_user_counters_64: nf") := by
  rfl

/-- C3 amended: the named-object reads (event statistics, listen-ip
statistics, glb service) clear the id and raise no error on
resource.not_found, and wrap every other error with the resource type and
name; the singleton user-counters statistics data source instead wraps
every error (with the resource type only, there being no name) and never
clears the id. -/
theorem read_error_surface
    (gE : String → Except VtmError EventStatistics)
    (gL : String → Except VtmError ListenIpStatistics)
    (gG : String → Except VtmError GlbService)
    (mD : List GlbServiceDnssecKeys → String)
    (mL : List GlbServiceLocationSettings → String)
    (name : String) (e : VtmError)
    (hE : gE name = .error e) (hL : gL name = .error e)
    (hG : gG name = .error e) :
    (e.errorId = "resource.not_found" →
      dataSourceEventStatisticsRead gE name = (none, some "", none) ∧
      dataSourceListenIpStatisticsRead gL name = (none, some "", none) ∧
      resourceGlbServiceRead mD mL gG name = (none, some "", none)) ∧
    (e.errorId ≠ "resource.not_found" →
      dataSourceEventStatisticsRead gE name = (none, none,
        some ("Failed to read vtm_events '" ++ name ++ "': " ++
          e.errorText)) ∧
      dataSourceListenIpStatisticsRead gL name = (none, none,
        some ("Failed to read vtm_listen_ips '" ++ name ++ "': " ++
          e.errorText)) ∧
      resourceGlbServiceRead mD mL gG name = (none, none,
        some ("Failed to read vtm_glb_service '" ++ name ++ "': " ++
          e.errorText))) ∧
    dataSourceExtrasUserCounters64StatisticsRead (.error e) =
      (none, none,
       some ("Failed to read vtm_user_counters_64: " ++ e.errorText)) := by
  refine ⟨?_, ?_, ?_⟩
  · intro h
    refine ⟨?_, ?_, ?_⟩ <;>
      simp [dataSourceEventStatisticsRead,
        dataSourceListenIpStatisticsRead, resourceGlbServiceRead,
        hE, hL, hG, h]
  · intro h
    refine ⟨?_, ?_, ?_⟩ <;>
      simp [dataSourceEventStatisticsRead,
        dataSourceListenIpStatisticsRead, resourceGlbServiceRead,
        hE, hL, hG, h]
  · rfl

/-- C3 amended witness: concrete evaluations at a not_found error and at
a licence error. -/
theorem read_error_surface_witness :
    (dataSourceEventStatisticsRead (fun _ => .error
        ⟨"resource.not_found", "nf"⟩) "e1" = (none, some "", none) ∧
      dataSourceListenIpStatisticsRead (fun _ => .error
        ⟨"resource.not_found", "nf"⟩) "e1" = (none, some "", none) ∧
      resourceGlbServiceRead (fun _ => "[]") (fun _ => "[]")
        (fun _ => .error ⟨"resource.not_found", "nf"⟩) "e1"
        = (none, some "", none)) ∧
    (dataSourceEventStatisticsRead (fun _ => .error
        ⟨"licence.expired", "le"⟩) "e1" = (none, none,
        some "Failed to read vtm_events 'e1': le") ∧
      dataSourceListenIpStatisticsRead (fun _ => .error
        ⟨"licence.expired", "le"⟩) "e1" = (none, none,
        some "Failed to read vtm_listen_ips 'e1': le") ∧
      resourceGlbServiceRead (fun _ => "[]") (fun _ => "[]")
        (fun _ => .error ⟨"licence.expired", "le"⟩) "e1" = (none, none,
        some "Failed to read vtm_glb_service 'e1': le")) := by
  have h1 := read_error_surface
    (fun _ => .error ⟨"resource.not_found", "nf"⟩)
    (fun _ => .error ⟨"resource.not_found", "nf"⟩)
    (fun _ => .error ⟨"resource.not_found", "nf"⟩)
    (fun _ => "[]") (fun _ => "[]") "e1" ⟨"resource.not_found", "nf"⟩
    rfl rfl rfl
  have h2 := read_error_surface
    (fun _ => .error ⟨"licence.expired", "le"⟩)
    (fun _ => .error ⟨"licence.expired", "le"⟩)
    (fun _ => .error ⟨"licence.expired", "le"⟩)
    (fun _ => "[]") (fun _ => "[]") "e1" ⟨"licence.expired", "le"⟩
    rfl rfl rfl
  exact ⟨h1.1 rfl, h2.2.1 (by decide)⟩

/-- C4: for every table attribute L with JSON shadow L_json, when L_json
is present but its contents fail to unmarshal, Create and Update raise no
error: the parse error is discarded and the operation continues to set
the id. -/
theorem malformed_json_swallowed
    (uD : String → Option (List GlbServiceDnssecKeys))
    (uL : String → Option (List GlbServiceLocationSettings))
    (uT : String → Option (List TrafficManagerTrafficip))
    (a : Except VtmError Unit) (d : GlbResourceData) (td : TMResourceData)
    (g : String → Except VtmError TMObjectFields) (obj : TMObjectFields)
    (s1 s3 : String)
    (hj1 : d.dnssec_keys_json = some s1) (hu1 : uD s1 = none)
    (hg : g td.name = .ok obj)
    (hj3 : td.trafficip_json = some s3) (hu3 : uT s3 = none) :
    (resourceGlbServiceCreate uD uL a d).err = none ∧
    (resourceGlbServiceCreate uD uL a d).id = some d.name ∧
    (resourceGlbServiceCreate uD uL a d).object.Basic.DnssecKeys = [] ∧
    ∃ out, resourceTrafficManagerUpdate uT g a td = .ok out ∧
      out.id = some td.name ∧ out.object.Trafficip = [] := by
  refine ⟨rfl, rfl, ?_, ?_⟩
  · simp [resourceGlbServiceCreate, tableBlock, hj1, hu1]
  · refine ⟨_, trafficManagerUpdate_ok_eq uT g a td obj hg, rfl, ?_⟩
    simp [tableBlock, hj3, hu3]

/-- C4 witness: concrete evaluation at glbDataBad / tmDataBad, whose JSON
shadows are the unparsable string "oops". -/
theorem malformed_json_swallowed_witness :
    (resourceGlbServiceCreate sampleUnmarshalDnssec sampleUnmarshalLoc
      applyFail glbDataBad).err = none ∧
    (resourceGlbServiceCreate sampleUnmarshalDnssec sampleUnmarshalLoc
      applyFail glbDataBad).id = some "glb1" ∧
    (resourceGlbServiceCreate sampleUnmarshalDnssec sampleUnmarshalLoc
      applyFail glbDataBad).object.Basic.DnssecKeys = [] ∧
    ∃ out, resourceTrafficManagerUpdate sampleUnmarshalTrafficip tmGetOk
        applyFail tmDataBad = .ok out ∧
      out.id = some "tm1" ∧ out.object.Trafficip = [] :=
  malformed_json_swallowed sampleUnmarshalDnssec sampleUnmarshalLoc
    sampleUnmarshalTrafficip applyFail glbDataBad tmDataBad tmGetOk tmObj0
    "oops" "oops" rfl rfl rfl rfl rfl

/-- C5: the list data source applies the supplied filters as successive
narrowing passes in the fixed order starts_with, ends_with, contains,
regex_match; in particular supplying starts_with and contains together
equals applying the contains filter to the starts_with filter's output. -/
theorem list_filters_compose_in_order
    (compile : String → Except String (String → Bool))
    (l : List String) :
    (∀ (p1 p2 p3 pat : String) (m : String → Bool),
      compile pat = .ok m →
      dataSourceTrafficManagerListRead compile (.ok l)
        ⟨some p1, some p2, some p3, some pat⟩ =
      (some ((getStringListContaining (getStringListEndingWith
          (getStringListStartingWith l p1) p2) p3).filter
            (fun s => m s)),
       some "traffic_manager_list", none)) ∧
    (∀ a z : String,
      dataSourceTrafficManagerListRead compile (.ok l)
        ⟨some a, none, some z, none⟩ =
      (some (getStringListContaining (getStringListStartingWith l a) z),
       some "traffic_manager_list", none)) := by
  constructor
  · intro p1 p2 p3 pat m hc
    simp [dataSourceTrafficManagerListRead, getStringListMatchingRegex, hc]
  · intro a z
    simp [dataSourceTrafficManagerListRead]

/-- C5 witness: concrete evaluation on a three-element list with all four
filters supplied, and with only starts_with and contains supplied. -/
theorem list_filters_compose_witness :
    dataSourceTrafficManagerListRead sampleCompile
      (.ok ["az", "ab", "bz"]) ⟨some "a", some "z", some "z", some "e"⟩ =
    (some ((getStringListContaining (getStringListEndingWith
        (getStringListStartingWith ["az", "ab", "bz"] "a") "z") "z").filter
          (fun s => sampleMatchEven s)),
     some "traffic_manager_list", none) ∧
    dataSourceTrafficManagerListRead sampleCompile
      (.ok ["az", "ab", "bz"]) ⟨some "a", none, some "z", none⟩ =
    (some (getStringListContaining
        (getStringListStartingWith ["az", "ab", "bz"] "a") "z"),
     some "traffic_manager_list", none) :=
  ⟨(list_filters_compose_in_order sampleCompile ["az", "ab", "bz"]).1
      "a" "z" "z" "e" sampleMatchEven rfl,
   (list_filters_compose_in_order sampleCompile ["az", "ab", "bz"]).2
      "a" "z"⟩

/-- C6: for every table attribute L with JSON shadow L_json, in Create and
Update: when L_json is absent and L is present, the value sent upstream is
the structured per-row conversion of L; when both are absent, it is the
empty table (the documented default: the freshly assigned empty table). -/
theorem structured_and_default_resolution
    (uD : String → Option (List GlbServiceDnssecKeys))
    (uL : String → Option (List GlbServiceLocationSettings))
    (uT : String → Option (List TrafficManagerTrafficip))
    (a : Except VtmError Unit) (d : GlbResourceData) (td : TMResourceData)
    (g : String → Except VtmError TMObjectFields) (obj : TMObjectFields)
    (hg : g td.name = .ok obj) :
    (∀ rows, d.dnssec_keys_json = none → d.dnssec_keys = some rows →
      (resourceGlbServiceCreate uD uL a d).object.Basic.DnssecKeys
        = rows.map dnssecKeysRowToVtm) ∧
    (d.dnssec_keys_json = none → d.dnssec_keys = none →
      (resourceGlbServiceCreate uD uL a d).object.Basic.DnssecKeys
        = []) ∧
    (∀ rows, d.location_settings_json = none →
      d.location_settings = some rows →
      (resourceGlbServiceCreate uD uL a d).object.Basic.LocationSettings
        = rows.map locationSettingsRowToVtm) ∧
    (d.location_settings_json = none → d.location_settings = none →
      (resourceGlbServiceCreate uD uL a d).object.Basic.LocationSettings
        = []) ∧
    (∃ out, resourceTrafficManagerUpdate uT g a td = .ok out ∧
      (∀ rows, td.trafficip_json = none → td.trafficip = some rows →
        out.object.Trafficip = rows.map trafficipRowToVtm) ∧
      (td.trafficip_json = none → td.trafficip = none →
        out.object.Trafficip = [])) := by
  refine ⟨?_, ?_, ?_, ?_, ?_⟩
  · intro rows hj hk; simp [resourceGlbServiceCreate, tableBlock, hj, hk]
  · intro hj hk; simp [resourceGlbServiceCreate, tableBlock, hj, hk]
  · intro rows hj hk; simp [resourceGlbServiceCreate, tableBlock, hj, hk]
  · intro hj hk; simp [resourceGlbServiceCreate, tableBlock, hj, hk]
  · refine ⟨_, trafficManagerUpdate_ok_eq uT g a td obj hg, ?_, ?_⟩
    · intro rows hj hk; simp [tableBlock, hj, hk]
    · intro hj hk; simp [tableBlock, hj, hk]

/-- C6 witness: concrete evaluation at glbData1 / tmData2 (structured
attributes only) and glbData2 / tmData1 (everything absent). -/
theorem structured_and_default_witness :
    (resourceGlbServiceCreate sampleUnmarshalDnssec sampleUnmarshalLoc
      applyFail glbData1).object.Basic.DnssecKeys
      = [sampleDnssecRow].map dnssecKeysRowToVtm ∧
    (resourceGlbServiceCreate sampleUnmarshalDnssec sampleUnmarshalLoc
      applyFail glbData1).object.Basic.LocationSettings
      = [sampleLocRow].map locationSettingsRowToVtm ∧
    (resourceGlbServiceCreate sampleUnmarshalDnssec sampleUnmarshalLoc
      applyFail glbData2).object.Basic.DnssecKeys = [] ∧
    (resourceGlbServiceCreate sampleUnmarshalDnssec sampleUnmarshalLoc
      applyFail glbData2).object.Basic.LocationSettings = [] ∧
    (∃ out, resourceTrafficManagerUpdate sampleUnmarshalTrafficip tmGetOk
        applyFail tmData2 = .ok out ∧
      out.object.Trafficip = [⟨"tip9", ["n1"]⟩].map trafficipRowToVtm) ∧
    (∃ out, resourceTrafficManagerUpdate sampleUnmarshalTrafficip tmGetOk
        applyFail tmData1 = .ok out ∧ out.object.Trafficip = []) := by
  have h1 := structured_and_default_resolution sampleUnmarshalDnssec
    sampleUnmarshalLoc sampleUnmarshalTrafficip applyFail glbData1 tmData2
    tmGetOk tmObj0 rfl
  have h2 := structured_and_default_resolution sampleUnmarshalDnssec
    sampleUnmarshalLoc sampleUnmarshalTrafficip applyFail glbData2 tmData1
    tmGetOk tmObj0 rfl
  obtain ⟨out1, hout1, hs1, -⟩ := h1.2.2.2.2
  obtain ⟨out2, hout2, -, hs2⟩ := h2.2.2.2.2
  exact ⟨h1.1 [sampleDnssecRow] rfl rfl, h1.2.2.1 [sampleLocRow] rfl rfl,
    h2.2.1 rfl rfl, h2.2.2.2.1 rfl rfl,
    ⟨out1, hout1, hs1 [⟨"tip9", ["n1"]⟩] rfl rfl⟩,
    ⟨out2, hout2, hs2 rfl rfl⟩⟩

/-- C7: for every string-list attribute of resourceTrafficManagerUpdate
absent from the configuration, the update resets the field to its
documented default (empty list, except the four literal defaults:
appliance_ntpservers, fault_tolerance_ospfv2_neighbor_addrs,
rest_api_bind_ips, snmp_allow), and the written-back state carries that
same default. -/
theorem absent_string_lists_reset_to_default
    (uT : String → Option (List TrafficManagerTrafficip))
    (g : String → Except VtmError TMObjectFields)
    (a : Except VtmError Unit) (td : TMResourceData)
    (obj : TMObjectFields) (hg : g td.name = .ok obj) :
    ∃ out, resourceTrafficManagerUpdate uT g a td = .ok out ∧
      (td.appliance_name_servers = none →
        out.object.NameServers = [] ∧
        out.writes.appliance_name_servers = some []) ∧
      (td.appliance_ntpservers = none →
        out.object.Ntpservers = zeusNtpDefault ∧
        out.writes.appliance_ntpservers = some zeusNtpDefault) ∧
      (td.appliance_search_domains = none →
        out.object.SearchDomains = [] ∧
        out.writes.appliance_search_domains = some []) ∧
      (td.appliance_vlans = none →
        out.object.Vlans = [] ∧ out.writes.appliance_vlans = some []) ∧
      (td.ec2_trafficips_public_enis = none →
        out.object.TrafficipsPublicEnis = [] ∧
        out.writes.ec2_trafficips_public_enis = some []) ∧
      (td.fault_tolerance_lss_dedicated_ips = none →
        out.object.LssDedicatedIps = [] ∧
        out.writes.fault_tolerance_lss_dedicated_ips = some []) ∧
      (td.fault_tolerance_ospfv2_neighbor_addrs = none →
        out.object.Ospfv2NeighborAddrs = ["%gateway%"] ∧
        out.writes.fault_tolerance_ospfv2_neighbor_addrs
          = some ["%gateway%"]) ∧
      (td.rest_api_bind_ips = none →
        out.object.BindIps = ["*"] ∧
        out.writes.rest_api_bind_ips = some ["*"]) ∧
      (td.snmp_allow = none →
        out.object.Allow = ["all"] ∧
        out.writes.snmp_allow = some ["all"]) := by
  refine ⟨_, trafficManagerUpdate_ok_eq uT g a td obj hg,
    ?_, ?_, ?_, ?_, ?_, ?_, ?_, ?_, ?_⟩ <;>
  · intro h; constructor <;> simp [stringListBlock, h]

/-- C7 witness: concrete evaluation at tmData1, where every embedded
string-list attribute is absent. -/
theorem absent_string_lists_reset_witness :
    ∃ out, resourceTrafficManagerUpdate sampleUnmarshalTrafficip tmGetOk
        applyFail tmData1 = .ok out ∧
      out.object.NameServers = [] ∧
      out.object.Ntpservers = zeusNtpDefault ∧
      out.writes.appliance_ntpservers = some zeusNtpDefault ∧
      out.object.Ospfv2NeighborAddrs = ["%gateway%"] ∧
      out.writes.fault_tolerance_ospfv2_neighbor_addrs
        = some ["%gateway%"] ∧
      out.object.BindIps = ["*"] ∧ out.writes.rest_api_bind_ips
        = some ["*"] ∧
      out.object.Allow = ["all"] ∧ out.writes.snmp_allow = some ["all"] ∧
      out.writes.appliance_vlans = some [] := by
  obtain ⟨out, hout, h1, h2, h3, h4, h5, h6, h7, h8, h9⟩ :=
    absent_string_lists_reset_to_default sampleUnmarshalTrafficip tmGetOk
      applyFail tmData1 tmObj0 rfl
  exact ⟨out, hout, (h1 rfl).1, (h2 rfl).1, (h2 rfl).2, (h7 rfl).1,
    (h7 rfl).2, (h8 rfl).1, (h8 rfl).2, (h9 rfl).1, (h9 rfl).2,
    (h4 rfl).2⟩

/-- C8: in the list data source, when the regex_match filter is supplied
and its pattern fails to compile, the read clears the id (SetId of the
empty string) and returns the compilation error; the object_list write is
never reached. -/
theorem regex_compile_failure_clears_id
    (compile : String → Except String (String → Bool))
    (l : List String) (d : ListFilterData) (pat e : String)
    (hr : d.regex_match = some pat) (hc : compile pat = .error e) :
    dataSourceTrafficManagerListRead compile (.ok l) d
      = (none, some "", some e) := by
  cases d with
  | mk sw ew cw rw =>
    cases sw <;> cases ew <;> cases cw <;>
      simp_all [dataSourceTrafficManagerListRead,
        getStringListMatchingRegex]

/-- C8 witness: concrete evaluation with the failing pattern "bad[". -/
theorem regex_compile_failure_witness :
    dataSourceTrafficManagerListRead sampleCompile (.ok ["az", "bz"])
      ⟨none, none, none, some "bad["⟩
      = (none, some "", some "error parsing regexp: bad[") :=
  regex_compile_failure_clears_id sampleCompile ["az", "bz"]
    ⟨none, none, none, some "bad["⟩ "bad["
    "error parsing regexp: bad[" rfl rfl

/-- C9: for every named object, a read that hits a resource.not_found
error sets the local identity to the empty string and returns no error
(event statistics, listen-ip statistics, glb service). -/
theorem not_found_clears_id_no_error
    (gE : String → Except VtmError EventStatistics)
    (gL : String → Except VtmError ListenIpStatistics)
    (gG : String → Except VtmError GlbService)
    (mD : List GlbServiceDnssecKeys → String)
    (mL : List GlbServiceLocationSettings → String)
    (name : String) (e : VtmError)
    (hid : e.errorId = "resource.not_found")
    (hE : gE name = .error e) (hL : gL name = .error e)
    (hG : gG name = .error e) :
    dataSourceEventStatisticsRead gE name = (none, some "", none) ∧
    dataSourceListenIpStatisticsRead gL name = (none, some "", none) ∧
    resourceGlbServiceRead mD mL gG name = (none, some "", none) := by
  refine ⟨?_, ?_, ?_⟩ <;>
    simp [dataSourceEventStatisticsRead, dataSourceListenIpStatisticsRead,
      resourceGlbServiceRead, hE, hL, hG, hid]

/-- C9 witness: concrete evaluation at a not_found error. -/
theorem not_found_clears_id_witness :
    dataSourceEventStatisticsRead
      (fun _ => .error ⟨"resource.not_found", "gone"⟩) "n1"
      = (none, some "", none) ∧
    dataSourceListenIpStatisticsRead
      (fun _ => .error ⟨"resource.not_found", "gone"⟩) "n1"
      = (none, some "", none) ∧
    resourceGlbServiceRead (fun _ => "[]") (fun _ => "[]")
      (fun _ => .error ⟨"resource.not_found", "gone"⟩) "n1"
      = (none, some "", none) :=
  not_found_clears_id_no_error
    (fun _ => .error ⟨"resource.not_found", "gone"⟩)
    (fun _ => .error ⟨"resource.not_found", "gone"⟩)
    (fun _ => .error ⟨"resource.not_found", "gone"⟩)
    (fun _ => "[]") (fun _ => "[]") "n1" ⟨"resource.not_found", "gone"⟩
    rfl rfl rfl rfl

/-- C10: once the initial fetch (or local construction) succeeds, Create
and Update return no error and set the resource id for every outcome of
object.Apply, whose result is discarded (resourceGlbServiceCreate,
resourceSecurityUpdate, resourceTrafficManagerUpdate). -/
theorem apply_result_discarded
    (uD : String → Option (List GlbServiceDnssecKeys))
    (uL : String → Option (List GlbServiceLocationSettings))
    (uT : String → Option (List TrafficManagerTrafficip))
    (a : Except VtmError Unit) (d : GlbResourceData)
    (sd : SecurityResourceData) (td : TMResourceData)
    (sg : Except VtmError SecurityObject) (sobj : SecurityObject)
    (tg : String → Except VtmError TMObjectFields) (tobj : TMObjectFields)
    (hs : sg = .ok sobj) (ht : tg td.name = .ok tobj) :
    (resourceGlbServiceCreate uD uL a d).err = none ∧
    (resourceGlbServiceCreate uD uL a d).id = some d.name ∧
    (∃ out, resourceSecurityUpdate sg a sd = .ok out ∧
      out.id = some "security") ∧
    (∃ out, resourceTrafficManagerUpdate uT tg a td = .ok out ∧
      out.id = some td.name) := by
  refine ⟨rfl, rfl, ?_, ?_⟩
  · refine ⟨⟨⟨(stringListBlock [] sd.access).1, sd.ssh_intrusion_bantime,
      (stringListBlock [] sd.ssh_intrusion_blacklist).1,
      sd.ssh_intrusion_enabled, sd.ssh_intrusion_findtime,
      sd.ssh_intrusion_maxretry,
      (stringListBlock [] sd.ssh_intrusion_whitelist).1⟩,
      (stringListBlock [] sd.access).2,
      (stringListBlock [] sd.ssh_intrusion_blacklist).2,
      (stringListBlock [] sd.ssh_intrusion_whitelist).2,
      some "security"⟩, ?_, rfl⟩
    simp [resourceSecurityUpdate, hs]
  · exact ⟨_, trafficManagerUpdate_ok_eq uT tg a td tobj ht, rfl⟩

/-- C10 witness: concrete evaluation with a failing Apply outcome
(applyFail): no error is raised and the ids are set. -/
theorem apply_result_discarded_witness :
    (resourceGlbServiceCreate sampleUnmarshalDnssec sampleUnmarshalLoc
      applyFail glbData0).err = none ∧
    (resourceGlbServiceCreate sampleUnmarshalDnssec sampleUnmarshalLoc
      applyFail glbData0).id = some "glb1" ∧
    (∃ out, resourceSecurityUpdate (.ok secObj0) applyFail secData0
      = .ok out ∧ out.id = some "security") ∧
    (∃ out, resourceTrafficManagerUpdate sampleUnmarshalTrafficip tmGetOk
      applyFail tmData0 = .ok out ∧ out.id = some "tm1") :=
  apply_result_discarded sampleUnmarshalDnssec sampleUnmarshalLoc
    sampleUnmarshalTrafficip applyFail glbData0 secData0 tmData0
    (.ok secObj0) secObj0 tmGetOk tmObj0 rfl rfl
